import Mathlib

/-!
Verification of the reconciliation modules (os_project, os_user, os_role,
os_router) against their natural-language specification.

The backend (the shade / keystone client library) is an external
collaborator; its operations are modelled per spec section 6 as pure
list manipulations over an explicit backend state, while every function
of the repository itself is translated line by line from the Python
source.  Each module function additionally returns the list of backend
calls it issued, so that frame and ordering properties can be stated.
-/

/-- A keystone project record (id, name, description, enabled). -/
structure ProjectR where
  id : String
  name : String
  description : String
  enabled : Bool
deriving Repr, DecidableEq

/-- A keystone user record.  The password is stored so that claims about
password handling can be stated. -/
structure UserR where
  id : String
  name : String
  email : String
  enabled : Bool
  password : String
  projectId : String
deriving Repr, DecidableEq

/-- A keystone role record. -/
structure RoleR where
  id : String
  name : String
deriving Repr, DecidableEq

/-- A role assignment: the given user holds the given role in the given
project.  Backing store for the keystone roles_for_user / add_user_role
client operations (spec section 6, list_role_assignments / assign_role). -/
structure Assignment where
  userId : String
  projectId : String
  role : RoleR
deriving Repr, DecidableEq

/-- A neutron router record. -/
structure RouterR where
  id : String
  name : String
  admin_state_up : Bool
deriving Repr, DecidableEq

/-- The observable state of the remote backend: one listing per resource
kind plus a counter used to mint fresh ids on creation. -/
structure Backend where
  projects : List ProjectR
  users : List UserR
  roles : List RoleR
  assignments : List Assignment
  routers : List RouterR
  nextId : Nat
deriving Repr, DecidableEq

/-- The backend with no resources at all. -/
def emptyBackend : Backend :=
  { projects := [], users := [], roles := [], assignments := [], routers := [], nextId := 0 }

/-- One backend call, as recorded in a trace.  Read calls carry the
queried name, mutating calls the affected identifier. -/
inductive Call where
  | getProject (n : String)
  | getUser (n : String)
  | getRouter (n : String)
  | listProjects
  | listUsers
  | listRoles
  | rolesForUser (uid pid : String)
  | createProject (n : String)
  | updateProject (id : String)
  | deleteProject (id : String)
  | createUser (n : String)
  | updateUser (id : String)
  | deleteUser (id : String)
  | createRole (n : String)
  | addUserRole (uid rid pid : String)
  | createRouter (n : String)
  | deleteRouter (n : String)
deriving Repr, DecidableEq

/-- Whether a backend call mutates the backend's observable state
(create, update, delete or role assignment), as opposed to a read. -/
def Call.isMutating : Call → Bool
  | .createProject _ => true
  | .updateProject _ => true
  | .deleteProject _ => true
  | .createUser _ => true
  | .updateUser _ => true
  | .deleteUser _ => true
  | .createRole _ => true
  | .addUserRole _ _ _ => true
  | .createRouter _ => true
  | .deleteRouter _ => true
  | _ => false

/-- Number of mutating calls in a trace. -/
def mutCount (t : List Call) : Nat := (t.filter Call.isMutating).length

/-- Boolean check that the first call of a trace, if any, is a read.
Because a read at the head precedes every later call, this is equivalent
to: every mutating call in the trace is preceded by an earlier read
(proved below as readPrecedes_of_headRead). -/
def headRead (t : List Call) : Bool :=
  match t with
  | [] => true
  | c :: _ => !c.isMutating

/-- Every mutating call in the trace has an earlier non-mutating (read)
call before it. -/
def ReadPrecedes (t : List Call) : Prop :=
  ∀ pre c post, t = pre ++ c :: post → c.isMutating = true →
    ∃ r ∈ pre, r.isMutating = false

/-- The exception kinds that the Python source can raise, plus the
backend client's own failure (shade.OpenStackCloudException). -/
inductive Err where
  | keyError (msg : String)
  | valueError (msg : String)
  | nameError (msg : String)
  | attributeError (msg : String)
  | notImplementedErr (msg : String)
  | backendFailure (msg : String)
deriving Repr, DecidableEq

/-- What an Ansible module invocation reports back: a normal exit with a
changed flag (exit_json), an explicit failure (fail_json), an uncaught
Python exception, or falling off the end of main without reporting. -/
inductive ModuleResult where
  | exitJson (changed : Bool) (msg : Option String) (idOut : Option String)
  | failJson (msg : String)
  | uncaught (e : Err)
  | noExit
deriving Repr, DecidableEq

/-! ## External backend-client operations (modelled per spec section 6) -/

/-- Modelled external collaborator: shade's cloud.get_project, per spec
section 6 "get_kind(name_or_id) may be implemented via Lookup over
list_kind": first listed project whose id or name equals the query. -/
def cloud_get_project (b : Backend) (name_or_id : String) : Option ProjectR :=
  match b.projects.filter (fun x => x.id == name_or_id || x.name == name_or_id) with
  | [] => none
  | p :: _ => some p

/-- Modelled external collaborator: shade's cloud.get_user, same lookup
shape as cloud_get_project. -/
def cloud_get_user (b : Backend) (name_or_id : String) : Option UserR :=
  match b.users.filter (fun x => x.id == name_or_id || x.name == name_or_id) with
  | [] => none
  | u :: _ => some u

/-- Modelled external collaborator: shade's cloud.get_router. -/
def cloud_get_router (b : Backend) (name_or_id : String) : Option RouterR :=
  match b.routers.filter (fun x => x.id == name_or_id || x.name == name_or_id) with
  | [] => none
  | r :: _ => some r

/-- The project record minted by cloud.create_project. -/
def newProject (b : Backend) (name description : String) (enabled : Bool) : ProjectR :=
  { id := "proj" ++ toString b.nextId, name := name,
    description := description, enabled := enabled }

/-- Modelled external collaborator: cloud.create_project appends a fresh
project to the listing. -/
def cloud_create_project (b : Backend) (name description : String) (enabled : Bool) : Backend :=
  { b with projects := b.projects ++ [newProject b name description enabled],
           nextId := b.nextId + 1 }

/-- Modelled external collaborator: cloud.update_project(id, description,
enabled) rewrites the two mutable attributes of the matching project. -/
def cloud_update_project (b : Backend) (id description : String) (enabled : Bool) : Backend :=
  { b with projects := b.projects.map (fun p =>
      if p.id == id then { p with description := description, enabled := enabled } else p) }

/-- Modelled external collaborator: cloud.delete_project removes the
project with the given id. -/
def cloud_delete_project (b : Backend) (id : String) : Backend :=
  { b with projects := b.projects.filter (fun p => p.id != id) }

/-- The user record minted by cloud.create_user / keystone.users.create. -/
def newUser (b : Backend) (name password email projectId : String) (enabled : Bool) : UserR :=
  { id := "user" ++ toString b.nextId, name := name, email := email,
    enabled := enabled, password := password, projectId := projectId }

/-- Modelled external collaborator: cloud.create_user appends a fresh
user to the listing. -/
def cloud_create_user (b : Backend) (name password email projectId : String)
    (enabled : Bool) : Backend :=
  { b with users := b.users ++ [newUser b name password email projectId enabled],
           nextId := b.nextId + 1 }

/-- Modelled external collaborator: cloud.update_user(name_or_id, email,
enabled) rewrites exactly the email and enabled attributes of the
matching user; every other stored attribute (in particular the password)
is untouched. -/
def cloud_update_user (b : Backend) (id email : String) (enabled : Bool) : Backend :=
  { b with users := b.users.map (fun u =>
      if u.id == id then { u with email := email, enabled := enabled } else u) }

/-- The role record minted by keystone.roles.create. -/
def newRole (b : Backend) (name : String) : RoleR :=
  { id := "role" ++ toString b.nextId, name := name }

/-- Modelled external collaborator: keystone.roles.create appends a
fresh role. -/
def roles_create (b : Backend) (name : String) : Backend :=
  { b with roles := b.roles ++ [newRole b name], nextId := b.nextId + 1 }

/-- Modelled external collaborator: keystone.roles.roles_for_user(user,
project), spec section 6 list_role_assignments: the roles this user
holds in this project. -/
def roles_for_user (b : Backend) (u : UserR) (p : ProjectR) : List RoleR :=
  (b.assignments.filter (fun a => a.userId == u.id && a.projectId == p.id)).map
    (fun a => a.role)

/-- Modelled external collaborator: keystone.roles.add_user_role, spec
section 6 assign_role: record that the user holds the role in the
project. -/
def add_user_role (b : Backend) (u : UserR) (r : RoleR) (p : ProjectR) : Backend :=
  { b with assignments := b.assignments ++ [{ userId := u.id, projectId := p.id, role := r }] }

/-- The router record minted by cloud.create_router. -/
def newRouter (b : Backend) (name : String) (admin_state_up : Bool) : RouterR :=
  { id := "router" ++ toString b.nextId, name := name, admin_state_up := admin_state_up }

/-- Modelled external collaborator: cloud.create_router appends a fresh
router. -/
def cloud_create_router (b : Backend) (name : String) (admin_state_up : Bool) : Backend :=
  { b with routers := b.routers ++ [newRouter b name admin_state_up],
           nextId := b.nextId + 1 }

/-- Modelled external collaborator: cloud.delete_router(name_or_id)
removes the routers matching the given name or id (shade resolves the
argument as a name-or-id). -/
def cloud_delete_router (b : Backend) (name_or_id : String) : Backend :=
  { b with routers := b.routers.filter (fun r => !(r.id == name_or_id || r.name == name_or_id)) }

/-! ## os_project.py -/

namespace OsProject

/-- os_project.py get_project (lines 63-69): filter the project listing
by id-or-name equality and return the first match, or None when the
filter is empty.  The source writes the comparison as a single equals
sign (a Python typo); it is read as the evident equality test. -/
def get_project (projects : List ProjectR) (name_or_id : String) : Option ProjectR :=
  match projects.filter (fun x => x.id == name_or_id || x.name == name_or_id) with
  | [] => none
  | p :: _ => some p

/-- os_project.py ensure_project_exists (lines 72-100): look the project
up, compare description and enabled, and update / create / no-op
accordingly; check_mode suppresses the mutating call. -/
def ensure_project_exists (b : Backend) (name description : String)
    (enabled check_mode : Bool) : List Call × Backend × (Bool × Option ProjectR) :=
  match cloud_get_project b name with
  | some project =>
      if project.description != description || project.enabled != enabled then
        if check_mode then
          ([Call.getProject name], b, (true, some project))
        else
          ([Call.getProject name, Call.updateProject project.id],
           cloud_update_project b project.id description enabled,
           (true, some { project with description := description, enabled := enabled }))
      else
        ([Call.getProject name], b, (false, some project))
  | none =>
      if check_mode then
        ([Call.getProject name], b, (true, none))
      else
        ([Call.getProject name, Call.createProject name],
         cloud_create_project b name description enabled,
         (true, some (newProject b name description enabled)))

/-- os_project.py ensure_project_absent (lines 103-118): the very first
statement reads the unbound Python name project_name (line 109), so the
function raises NameError before issuing any backend call. -/
def ensure_project_absent (b : Backend) (name : String) (check_mode : Bool) :
    List Call × Backend × Except Err Bool :=
  ([], b, .error (.nameError "name project_name is not defined"))

/-- os_project.py main (lines 121-160): dispatch on state; a
shade.OpenStackCloudException (modelled as an injected fault raised when
the cloud handle is constructed) is reported leniently in check mode
(exit_json changed=true with the message) and as fail_json otherwise. -/
def main (fault : Option String) (b : Backend) (project description : String)
    (enabled : Bool) (state : String) (check_mode : Bool) :
    List Call × Backend × ModuleResult :=
  match fault with
  | some m =>
      if check_mode then ([], b, .exitJson true (some m) none)
      else ([], b, .failJson m)
  | none =>
      if state == "present" then
        match ensure_project_exists b project description enabled check_mode with
        | (t, b2, (changed, p)) => (t, b2, .exitJson changed none (p.map (fun x => x.id)))
      else if state == "absent" then
        match ensure_project_absent b project check_mode with
        | (t, b2, .ok changed) => (t, b2, .exitJson changed none none)
        | (t, b2, .error e) => (t, b2, .uncaught e)
      else
        ([], b, .noExit)

end OsProject

/-! ## os_user.py -/

namespace OsUser

/-- os_user.py ensure_user_exists (lines 75-100): look the user up; when
found, compare enabled and email (the source writes the conjunction with
a C-style double ampersand, a Python typo read as the evident logical
and); no-op when both match, otherwise update email and enabled only
(the password is never passed to update_user); when absent, create with
the full attribute set.  check_mode suppresses the mutating call. -/
def ensure_user_exists (b : Backend) (name password email projectArg : String)
    (enabled check_mode : Bool) : List Call × Backend × (Bool × Option UserR) :=
  match cloud_get_user b name with
  | some user =>
      if user.enabled == enabled && user.email == email then
        ([Call.getUser name], b, (false, some user))
      else if check_mode then
        ([Call.getUser name], b, (true, some user))
      else
        ([Call.getUser name, Call.updateUser user.id],
         cloud_update_user b user.id email enabled,
         (true, some { user with email := email, enabled := enabled }))
  | none =>
      if check_mode then
        ([Call.getUser name], b, (true, none))
      else
        ([Call.getUser name, Call.createUser name],
         cloud_create_user b name password email projectArg enabled,
         (true, some (newUser b name password email projectArg enabled)))

/-- os_user.py ensure_user_absent (lines 103-118): look the user up;
return False when absent; otherwise, outside check mode, the source
calls cloud.delete_project(user.id) (line 117) — the project deletion
operation, not the user one — and returns True. -/
def ensure_user_absent (b : Backend) (name_or_id : String) (check_mode : Bool) :
    List Call × Backend × Bool :=
  match cloud_get_user b name_or_id with
  | none => ([Call.getUser name_or_id], b, false)
  | some user =>
      if check_mode then
        ([Call.getUser name_or_id], b, true)
      else
        ([Call.getUser name_or_id, Call.deleteProject user.id],
         cloud_delete_project b user.id, true)

/-- os_user.py main (lines 121-164): for state present the source calls
the undefined name ensure_user_present (line 150), an uncaught
NameError; otherwise it runs ensure_user_absent.  A
shade.OpenStackCloudException (injected fault at cloud construction) is
reported leniently in check mode and as fail_json otherwise. -/
def main (fault : Option String) (b : Backend) (name password projectArg email : String)
    (enabled : Bool) (state : String) (check_mode : Bool) :
    List Call × Backend × ModuleResult :=
  match fault with
  | some m =>
      if check_mode then ([], b, .exitJson true (some m) none)
      else ([], b, .failJson m)
  | none =>
      if state == "present" then
        ([], b, .uncaught (.nameError "name ensure_user_present is not defined"))
      else
        match ensure_user_absent b name check_mode with
        | (t, b2, changed) => (t, b2, .exitJson changed none none)

end OsUser

/-! ## os_role.py -/

namespace OsRole

/-- os_role.py get_user (lines 69-78): filter the user listing by name;
zero matches raise KeyError, more than one raise ValueError, exactly one
is returned. -/
def get_user (users : List UserR) (name : String) : Except Err UserR :=
  match users.filter (fun x => x.name == name) with
  | [] => .error (.keyError ("No keystone users with name " ++ name))
  | [u] => .ok u
  | us => .error (.valueError (toString us.length ++ " users with name " ++ name))

/-- os_role.py get_role (lines 81-90): same shape as get_user over the
role listing. -/
def get_role (roles : List RoleR) (name : String) : Except Err RoleR :=
  match roles.filter (fun x => x.name == name) with
  | [] => .error (.keyError ("No keystone roles with name " ++ name))
  | [r] => .ok r
  | rs => .error (.valueError (toString rs.length ++ " roles with name " ++ name))

/-- os_role.py ensure_user_exists (lines 101-127): try get_user, an
existing user is returned unchanged; KeyError falls through to the
creation path (check_mode returns before it); the project lookup uses
get_project, which resolves to the os_project.py definition (os_role.py
itself defines none); a None project would then fail reading .id, an
AttributeError. -/
def ensure_user_exists (b : Backend) (user_name password email project_name : String)
    (check_mode : Bool) : List Call × Backend × Except Err (Bool × Option String) :=
  match get_user b.users user_name with
  | .ok user => ([Call.listUsers], b, .ok (false, some user.id))
  | .error (.keyError _) =>
      if check_mode then
        ([Call.listUsers], b, .ok (true, none))
      else
        match OsProject.get_project b.projects project_name with
        | none =>
            ([Call.listUsers, Call.listProjects], b,
             .error (.attributeError "NoneType object has no attribute id"))
        | some project =>
            ([Call.listUsers, Call.listProjects, Call.createUser user_name],
             cloud_create_user b user_name password email project.id true,
             .ok (true, some ("user" ++ toString b.nextId)))
  | .error e => ([Call.listUsers], b, .error e)

/-- os_role.py ensure_role_exists (lines 130-167): resolve the user (by
get_user) and the project (by get_project, the os_project.py
definition), list the roles the user holds in the project and filter by
role name; exactly one match is a no-op, more than one raises
ValueError; zero matches mean a change: check_mode returns (true, none)
before any mutation, otherwise the role is fetched (get_role) or created
(keystone.roles.create) and then assigned (keystone.roles.add_user_role).
A None project would make the roles_for_user client call fail. -/
def ensure_role_exists (b : Backend) (user_name project_name role_name : String)
    (check_mode : Bool) : List Call × Backend × Except Err (Bool × Option String) :=
  match get_user b.users user_name with
  | .error e => ([Call.listUsers], b, .error e)
  | .ok user =>
      match OsProject.get_project b.projects project_name with
      | none =>
          ([Call.listUsers, Call.listProjects], b,
           .error (.backendFailure "roles_for_user called with project None"))
      | some project =>
          match (roles_for_user b user project).filter (fun x => x.name == role_name) with
          | [role] =>
              ([Call.listUsers, Call.listProjects, Call.rolesForUser user.id project.id],
               b, .ok (false, some role.id))
          | [] =>
              if check_mode then
                ([Call.listUsers, Call.listProjects, Call.rolesForUser user.id project.id],
                 b, .ok (true, none))
              else
                match get_role b.roles role_name with
                | .ok role =>
                    ([Call.listUsers, Call.listProjects,
                      Call.rolesForUser user.id project.id, Call.listRoles,
                      Call.addUserRole user.id role.id project.id],
                     add_user_role b user role project, .ok (true, some role.id))
                | .error (.keyError _) =>
                    ([Call.listUsers, Call.listProjects,
                      Call.rolesForUser user.id project.id, Call.listRoles,
                      Call.createRole role_name,
                      Call.addUserRole user.id (newRole b role_name).id project.id],
                     add_user_role (roles_create b role_name) user (newRole b role_name) project,
                     .ok (true, some (newRole b role_name).id))
                | .error e =>
                    ([Call.listUsers, Call.listProjects,
                      Call.rolesForUser user.id project.id, Call.listRoles],
                     b, .error e)
          | rs =>
              ([Call.listUsers, Call.listProjects, Call.rolesForUser user.id project.id],
               b, .error (.valueError (toString rs.length ++ " roles with name " ++ role_name)))

/-- os_role.py ensure_user_absent (lines 170-171): raises
NotImplementedError unconditionally. -/
def ensure_user_absent (b : Backend) (user : String) (check_mode : Bool) :
    List Call × Backend × Except Err Bool :=
  ([], b, .error (.notImplementedErr "Not yet implemented"))

/-- os_role.py ensure_role_absent (lines 174-175): raises
NotImplementedError unconditionally. -/
def ensure_role_absent (b : Backend) (user project role : String) (check_mode : Bool) :
    List Call × Backend × Except Err Bool :=
  ([], b, .error (.notImplementedErr "Not yet implemented"))

/-- os_role.py dispatch (lines 178-218): route on which identifying
fields are non-empty plus the state, per the six-row precedence table;
anything else raises ValueError before touching the backend.  The two
project rows call ensure_project_exists / ensure_project_absent, names
that os_role.py never defines, so those branches raise NameError at call
time.  Empty strings model Python falsy values (None or ""). -/
def dispatch (b : Backend) (user password project project_description email role : String)
    (state : String) (check_mode : Bool) :
    List Call × Backend × Except Err (Bool × Option String) :=
  if project != "" && user == "" && role == "" && state == "present" then
    ([], b, .error (.nameError "name ensure_project_exists is not defined"))
  else if project != "" && user == "" && role == "" && state == "absent" then
    ([], b, .error (.nameError "name ensure_project_absent is not defined"))
  else if project != "" && user != "" && role == "" && state == "present" then
    ensure_user_exists b user password email project check_mode
  else if project != "" && user != "" && role == "" && state == "absent" then
    match ensure_user_absent b user check_mode with
    | (t, b2, .error e) => (t, b2, .error e)
    | (t, b2, .ok changed) => (t, b2, .ok (changed, none))
  else if project != "" && user != "" && role != "" && state == "present" then
    ensure_role_exists b user project role check_mode
  else if project != "" && user != "" && role != "" && state == "absent" then
    match ensure_role_absent b user project role check_mode with
    | (t, b2, .error e) => (t, b2, .error e)
    | (t, b2, .ok changed) => (t, b2, .ok (changed, none))
  else
    ([], b, .error (.valueError "Code should never reach here"))

/-- os_role.py main (lines 221-255): the try block only constructs the
cloud handle; on success the else clause runs exit_json with the unbound
name d (line 255), an uncaught NameError.  A fault at construction is
reported leniently in check mode and as fail_json otherwise. -/
def main (fault : Option String) (b : Backend) (check_mode : Bool) :
    List Call × Backend × ModuleResult :=
  match fault with
  | some m =>
      if check_mode then ([], b, .exitJson true (some m) none)
      else ([], b, .failJson m)
  | none => ([], b, .uncaught (.nameError "name d is not defined"))

end OsRole

/-! ## os_router.py -/

namespace OsRouter

/-- os_router.py main (lines 60-98): look the router up; for state
present, create it when absent (reporting changed=true) and otherwise
report changed=false with the existing id, performing no comparison and
no update; for state absent, delete by the supplied name.  The module
never consults module.check_mode — the check_mode parameter is accepted
and ignored, as in the source.  Any shade.OpenStackCloudException
(injected fault) is reported with fail_json unconditionally (lines
97-98). -/
def main (fault : Option String) (b : Backend) (name : String)
    (admin_state_up : Bool) (state : String) (check_mode : Bool) :
    List Call × Backend × ModuleResult :=
  match fault with
  | some m => ([], b, .failJson m)
  | none =>
      match cloud_get_router b name with
      | none =>
          if state == "present" then
            ([Call.getRouter name, Call.createRouter name],
             cloud_create_router b name admin_state_up,
             .exitJson true (some "Created") (some (newRouter b name admin_state_up).id))
          else if state == "absent" then
            ([Call.getRouter name], b, .exitJson false (some "Success") none)
          else
            ([Call.getRouter name], b, .noExit)
      | some router =>
          if state == "present" then
            ([Call.getRouter name], b, .exitJson false (some "Success") (some router.id))
          else if state == "absent" then
            ([Call.getRouter name, Call.deleteRouter name],
             cloud_delete_router b name, .exitJson true (some "Deleted") none)
          else
            ([Call.getRouter name], b, .noExit)

end OsRouter

/-! ## Trace helper lemmas -/

/-- A trace whose head is a read satisfies the ordering property: every
mutating call in it has an earlier read. -/
theorem readPrecedes_of_headRead (t : List Call) (h : headRead t = true) :
    ReadPrecedes t := by
  intro pre c post heq hmut
  cases pre with
  | nil =>
      rw [List.nil_append] at heq
      rw [heq] at h
      simp only [headRead, Bool.not_eq_true'] at h
      rw [h] at hmut
      cases hmut
  | cons a pre =>
      rw [heq] at h
      simp only [List.cons_append, headRead, Bool.not_eq_true'] at h
      exact ⟨a, List.mem_cons_self a pre, h⟩

/-- An empty trace satisfies the ordering property vacuously. -/
theorem readPrecedes_nil : ReadPrecedes [] := by
  intro pre c post heq _
  exact absurd heq (by simp)

/-! ## Dry-run frame lemmas (check_mode = true issues no mutating call
and leaves the backend untouched), one per convergence function. -/

theorem proj_exists_dry (b : Backend) (n d : String) (e : Bool) :
    (OsProject.ensure_project_exists b n d e true).2.1 = b ∧
    mutCount (OsProject.ensure_project_exists b n d e true).1 = 0 := by
  unfold OsProject.ensure_project_exists
  cases cloud_get_project b n with
  | none => simp [mutCount, Call.isMutating]
  | some project => split <;> split <;> simp_all [mutCount, Call.isMutating]

theorem proj_absent_dry (b : Backend) (n : String) :
    (OsProject.ensure_project_absent b n true).2.1 = b ∧
    mutCount (OsProject.ensure_project_absent b n true).1 = 0 := by
  simp [OsProject.ensure_project_absent, mutCount]

theorem user_exists_dry (b : Backend) (n pw em pj : String) (e : Bool) :
    (OsUser.ensure_user_exists b n pw em pj e true).2.1 = b ∧
    mutCount (OsUser.ensure_user_exists b n pw em pj e true).1 = 0 := by
  unfold OsUser.ensure_user_exists
  cases cloud_get_user b n <;> simp [mutCount, Call.isMutating] <;> split <;>
    simp [mutCount, Call.isMutating]

theorem user_absent_dry (b : Backend) (n : String) :
    (OsUser.ensure_user_absent b n true).2.1 = b ∧
    mutCount (OsUser.ensure_user_absent b n true).1 = 0 := by
  unfold OsUser.ensure_user_absent
  cases cloud_get_user b n <;> simp [mutCount, Call.isMutating]

theorem role_exists_dry (b : Backend) (u p r : String) :
    (OsRole.ensure_role_exists b u p r true).2.1 = b ∧
    mutCount (OsRole.ensure_role_exists b u p r true).1 = 0 := by
  unfold OsRole.ensure_role_exists
  cases OsRole.get_user b.users u with
  | error e => simp [mutCount, Call.isMutating]
  | ok user =>
      cases OsProject.get_project b.projects p with
      | none => simp [mutCount, Call.isMutating]
      | some project =>
          cases hf : (roles_for_user b user project).filter (fun x => x.name == r) with
          | nil => simp [hf, mutCount, Call.isMutating]
          | cons x xs =>
              cases xs <;> simp [hf, mutCount, Call.isMutating]

theorem role_user_exists_dry (b : Backend) (u pw em p : String) :
    (OsRole.ensure_user_exists b u pw em p true).2.1 = b ∧
    mutCount (OsRole.ensure_user_exists b u pw em p true).1 = 0 := by
  unfold OsRole.ensure_user_exists
  cases h : OsRole.get_user b.users u with
  | error e => cases e <;> simp [mutCount, Call.isMutating]
  | ok user => simp [mutCount, Call.isMutating]

/-- C1 (corrected).  Dry-run non-mutation as amended: for the Project,
User and RoleAssignment convergence functions, every input run with
check mode active leaves the backend state identical and issues zero
mutating backend calls; the Router module (see the counterexample) is
excluded because it never consults check mode. -/
theorem dry_run_non_mutation_amended (b : Backend) (n d pw em pj u p r : String)
    (e en : Bool) :
    ((OsProject.ensure_project_exists b n d e true).2.1 = b ∧
      mutCount (OsProject.ensure_project_exists b n d e true).1 = 0) ∧
    ((OsProject.ensure_project_absent b n true).2.1 = b ∧
      mutCount (OsProject.ensure_project_absent b n true).1 = 0) ∧
    ((OsUser.ensure_user_exists b n pw em pj en true).2.1 = b ∧
      mutCount (OsUser.ensure_user_exists b n pw em pj en true).1 = 0) ∧
    ((OsUser.ensure_user_absent b n true).2.1 = b ∧
      mutCount (OsUser.ensure_user_absent b n true).1 = 0) ∧
    ((OsRole.ensure_user_exists b u pw em p true).2.1 = b ∧
      mutCount (OsRole.ensure_user_exists b u pw em p true).1 = 0) ∧
    ((OsRole.ensure_role_exists b u p r true).2.1 = b ∧
      mutCount (OsRole.ensure_role_exists b u p r true).1 = 0) :=
  ⟨proj_exists_dry b n d e, proj_absent_dry b n, user_exists_dry b n pw em pj en,
   user_absent_dry b n, role_user_exists_dry b u pw em p, role_exists_dry b u p r⟩

/-- C1 counterexample.  The Router module ignores check mode: on an
empty backend with state present and check mode active it still issues
a mutating create_router call and the backend after the call differs
from the backend before it. -/
theorem router_check_mode_mutates :
    mutCount (OsRouter.main none emptyBackend "router1" true "present" true).1 = 1 ∧
    (OsRouter.main none emptyBackend "router1" true "present" true).2.1 ≠ emptyBackend := by
  constructor
  · decide
  · decide

/-! ## Call-ordering lemmas (a lookup opens every trace, bounded number
of mutations), one per convergence function, for any check mode. -/

theorem proj_exists_calls (b : Backend) (n d : String) (e ck : Bool) :
    headRead (OsProject.ensure_project_exists b n d e ck).1 = true ∧
    mutCount (OsProject.ensure_project_exists b n d e ck).1 ≤ 1 := by
  unfold OsProject.ensure_project_exists
  repeat' split
  all_goals simp_all [headRead, mutCount, Call.isMutating]

theorem proj_absent_calls (b : Backend) (n : String) (ck : Bool) :
    headRead (OsProject.ensure_project_absent b n ck).1 = true ∧
    mutCount (OsProject.ensure_project_absent b n ck).1 ≤ 1 := by
  simp [OsProject.ensure_project_absent, headRead, mutCount]

theorem user_exists_calls (b : Backend) (n pw em pj : String) (e ck : Bool) :
    headRead (OsUser.ensure_user_exists b n pw em pj e ck).1 = true ∧
    mutCount (OsUser.ensure_user_exists b n pw em pj e ck).1 ≤ 1 := by
  unfold OsUser.ensure_user_exists
  repeat' split
  all_goals simp_all [headRead, mutCount, Call.isMutating]

theorem user_absent_calls (b : Backend) (n : String) (ck : Bool) :
    headRead (OsUser.ensure_user_absent b n ck).1 = true ∧
    mutCount (OsUser.ensure_user_absent b n ck).1 ≤ 1 := by
  unfold OsUser.ensure_user_absent
  repeat' split
  all_goals simp_all [headRead, mutCount, Call.isMutating]

theorem role_user_exists_calls (b : Backend) (u pw em p : String) (ck : Bool) :
    headRead (OsRole.ensure_user_exists b u pw em p ck).1 = true ∧
    mutCount (OsRole.ensure_user_exists b u pw em p ck).1 ≤ 1 := by
  unfold OsRole.ensure_user_exists
  repeat' split
  all_goals simp_all [headRead, mutCount, Call.isMutating]

theorem role_exists_calls (b : Backend) (u p r : String) (ck : Bool) :
    headRead (OsRole.ensure_role_exists b u p r ck).1 = true ∧
    mutCount (OsRole.ensure_role_exists b u p r ck).1 ≤ 2 := by
  unfold OsRole.ensure_role_exists
  cases OsRole.get_user b.users u with
  | error e => simp [headRead, mutCount, Call.isMutating]
  | ok user =>
      cases OsProject.get_project b.projects p with
      | none => simp [headRead, mutCount, Call.isMutating]
      | some project =>
          cases hf : (roles_for_user b user project).filter (fun x => x.name == r) with
          | nil =>
              cases ck with
              | true => simp [hf, headRead, mutCount, Call.isMutating]
              | false =>
                  cases hr : OsRole.get_role b.roles r with
                  | ok role => simp [hf, hr, headRead, mutCount, Call.isMutating]
                  | error e =>
                      cases e <;> simp [hf, hr, headRead, mutCount, Call.isMutating]
          | cons x xs => cases xs <;> simp [hf, headRead, mutCount, Call.isMutating]

theorem router_calls (fault : Option String) (b : Backend) (n : String)
    (asu : Bool) (st : String) (ck : Bool) :
    headRead (OsRouter.main fault b n asu st ck).1 = true ∧
    mutCount (OsRouter.main fault b n asu st ck).1 ≤ 1 := by
  unfold OsRouter.main
  repeat' split
  all_goals simp_all [headRead, mutCount, Call.isMutating]

/-- C6 (corrected).  Amended ordering guarantee: in every invocation of
every convergence function, any mutating call is preceded by an earlier
read (the Lookup), and at most one mutating call is issued by the
Project, User and Router convergence paths; the RoleAssignment path
issues at most two (keystone role creation followed by the role
assignment, see the counterexample), never more. -/
theorem lookup_precedes_mutations_amended (fault : Option String) (b : Backend)
    (n d pw em pj u p r rn : String) (e en asu : Bool) (st : String) (ck : Bool) :
    (ReadPrecedes (OsProject.ensure_project_exists b n d e ck).1 ∧
      mutCount (OsProject.ensure_project_exists b n d e ck).1 ≤ 1) ∧
    (ReadPrecedes (OsProject.ensure_project_absent b n ck).1 ∧
      mutCount (OsProject.ensure_project_absent b n ck).1 ≤ 1) ∧
    (ReadPrecedes (OsUser.ensure_user_exists b n pw em pj en ck).1 ∧
      mutCount (OsUser.ensure_user_exists b n pw em pj en ck).1 ≤ 1) ∧
    (ReadPrecedes (OsUser.ensure_user_absent b n ck).1 ∧
      mutCount (OsUser.ensure_user_absent b n ck).1 ≤ 1) ∧
    (ReadPrecedes (OsRole.ensure_user_exists b u pw em p ck).1 ∧
      mutCount (OsRole.ensure_user_exists b u pw em p ck).1 ≤ 1) ∧
    (ReadPrecedes (OsRole.ensure_role_exists b u p rn ck).1 ∧
      mutCount (OsRole.ensure_role_exists b u p rn ck).1 ≤ 2) ∧
    (ReadPrecedes (OsRouter.main fault b n asu st ck).1 ∧
      mutCount (OsRouter.main fault b n asu st ck).1 ≤ 1) :=
  ⟨⟨readPrecedes_of_headRead _ (proj_exists_calls b n d e ck).1, (proj_exists_calls b n d e ck).2⟩,
   ⟨readPrecedes_of_headRead _ (proj_absent_calls b n ck).1, (proj_absent_calls b n ck).2⟩,
   ⟨readPrecedes_of_headRead _ (user_exists_calls b n pw em pj en ck).1,
    (user_exists_calls b n pw em pj en ck).2⟩,
   ⟨readPrecedes_of_headRead _ (user_absent_calls b n ck).1, (user_absent_calls b n ck).2⟩,
   ⟨readPrecedes_of_headRead _ (role_user_exists_calls b u pw em p ck).1,
    (role_user_exists_calls b u pw em p ck).2⟩,
   ⟨readPrecedes_of_headRead _ (role_exists_calls b u p rn ck).1,
    (role_exists_calls b u p rn ck).2⟩,
   ⟨readPrecedes_of_headRead _ (router_calls fault b n asu st ck).1,
    (router_calls fault b n asu st ck).2⟩⟩

/-- A backend holding exactly the user john and the project demo, with
no roles and no role assignments. -/
def roleCexBackend : Backend :=
  { projects := [{ id := "p1", name := "demo", description := "", enabled := true }],
    users := [{ id := "u1", name := "john", email := "", enabled := true,
                password := "", projectId := "p1" }],
    roles := [], assignments := [], routers := [], nextId := 0 }

/-- C6 counterexample.  When the requested role does not exist yet, the
RoleAssignment convergence issues two mutating calls in one invocation
(create the role, then assign it), contradicting the claimed bound of at
most one mutating call. -/
theorem role_two_mutations :
    mutCount (OsRole.ensure_role_exists roleCexBackend "john" "demo" "admin" false).1 = 2 := by
  decide

/-! ## C4: an existing router is never updated -/

/-- A backend holding exactly one router named router1 whose
admin_state_up is false. -/
def routerCexBackend : Backend :=
  { projects := [], users := [], roles := [], assignments := [],
    routers := [{ id := "r1", name := "router1", admin_state_up := false }],
    nextId := 0 }

/-- C4 counterexample.  Converging the existing router1 (admin_state_up
false) towards admin_state_up true with state present outside check mode
reports changed=false and leaves the backend — including the divergent
admin_state_up — untouched, contradicting the claimed (changed=true,
admin_state_up=true) outcome. -/
theorem router_divergent_not_updated :
    OsRouter.main none routerCexBackend "router1" true "present" false =
      ([Call.getRouter "router1"], routerCexBackend,
        .exitJson false (some "Success") (some "r1")) := by
  decide

/-- C4 (corrected).  Amended scenario: whenever the router lookup finds
an existing router, state present outside check mode reports
changed=false with that router's id and performs no backend call besides
the lookup — the desired admin_state_up is never compared or applied to
an existing router (it only parameterizes creation). -/
theorem router_present_existing_noop (b : Backend) (n : String) (asu : Bool)
    (router : RouterR) (h : cloud_get_router b n = some router) :
    OsRouter.main none b n asu "present" false =
      ([Call.getRouter n], b, .exitJson false (some "Success") (some router.id)) := by
  unfold OsRouter.main
  rw [h]
  rfl

/-- C4 witness: the amended scenario evaluated on a concrete backend. -/
theorem router_present_existing_noop_witness :
    OsRouter.main none routerCexBackend "router1" false "present" false =
      ([Call.getRouter "router1"], routerCexBackend,
        .exitJson false (some "Success") (some "r1")) :=
  router_present_existing_noop routerCexBackend "router1" false
    { id := "r1", name := "router1", admin_state_up := false } (by decide)

/-! ## C7: backend-failure reporting -/

/-- C7 (corrected).  Amended failure reporting: when the backend client
raises an OpenStackCloudException, the Project, User and RoleAssignment
modules report changed=true with the diagnostic message attached while
in check mode, and fail with the backend-provided detail otherwise; the
Router module (see the counterexample) reports a hard failure in every
mode. -/
theorem backend_failure_reporting_amended (m : String) (b : Backend)
    (pj d pw em n : String) (e : Bool) (st : String) (asu ck : Bool) :
    OsProject.main (some m) b pj d e st true = ([], b, .exitJson true (some m) none) ∧
    OsProject.main (some m) b pj d e st false = ([], b, .failJson m) ∧
    OsUser.main (some m) b n pw pj em e st true = ([], b, .exitJson true (some m) none) ∧
    OsUser.main (some m) b n pw pj em e st false = ([], b, .failJson m) ∧
    OsRole.main (some m) b true = ([], b, .exitJson true (some m) none) ∧
    OsRole.main (some m) b false = ([], b, .failJson m) ∧
    OsRouter.main (some m) b n asu st ck = ([], b, .failJson m) :=
  ⟨rfl, rfl, rfl, rfl, rfl, rfl, rfl⟩

/-- C7 counterexample.  With check mode active and a backend failure,
the Router module responds with fail_json — a hard failure — not with
the lenient changed=true report the claim requires of every kind. -/
theorem router_check_mode_hard_failure :
    OsRouter.main (some "Quota exceeded") emptyBackend "router1" true "present" true =
      ([], emptyBackend, .failJson "Quota exceeded") ∧
    (OsRouter.main (some "Quota exceeded") emptyBackend "router1" true "present" true).2.2 ≠
      .exitJson true (some "Quota exceeded") none :=
  ⟨rfl, by decide⟩

/-! ## C8: deletion uses the wrong backend operation for users -/

/-- A backend holding one project (p1) and one user (john, id u1). -/
def userAbsentBackend : Backend :=
  { projects := [{ id := "p1", name := "demo", description := "", enabled := true }],
    users := [{ id := "u1", name := "john", email := "", enabled := true,
                password := "pw", projectId := "p1" }],
    roles := [], assignments := [], routers := [], nextId := 0 }

/-- C8 (code_bug), evaluation at the failing input.  Removing user john
outside check mode issues delete_project on the user's id u1 instead of
delete_user, reports success (true), and leaves the user listing — and,
since no project has id u1, the whole backend — unchanged: the user is
not removed. -/
theorem user_absent_wrong_delete :
    OsUser.ensure_user_absent userAbsentBackend "john" false =
      ([Call.getUser "john", Call.deleteProject "u1"], userAbsentBackend, true) ∧
    ((OsUser.ensure_user_absent userAbsentBackend "john" false).1.all
      (fun c => c != Call.deleteUser "u1")) = true ∧
    ((OsUser.ensure_user_absent userAbsentBackend "john" false).2.1).users =
      userAbsentBackend.users := by
  exact ⟨by decide, by decide, by decide⟩

/-! ## C3: lookup behaviour on zero, one, and many matches -/

/-- C3 counterexample.  With two projects sharing the name demo, the
project lookup silently returns the first listed match instead of
failing with a MultipleMatches error. -/
theorem get_project_silent_first_match :
    OsProject.get_project
      [{ id := "a", name := "demo", description := "", enabled := true },
       { id := "b", name := "demo", description := "", enabled := true }] "demo" =
      some { id := "a", name := "demo", description := "", enabled := true } := by
  decide

/-- C3 (corrected).  Amended lookup contract: the user and role lookups
of the role module (get_user, get_role) fail with an ambiguity error
(ValueError) on two or more name matches, fail with a not-found error
(KeyError) on zero matches — they never return None — and return the
unique match otherwise; the project lookup never fails: it returns the
first id-or-name match when any exists and None when none does. -/
theorem lookup_behavior_amended :
    (∀ (us : List UserR) (n : String), 2 ≤ (us.filter (fun x => x.name == n)).length →
        ∃ m, OsRole.get_user us n = .error (.valueError m)) ∧
    (∀ (us : List UserR) (n : String), us.filter (fun x => x.name == n) = [] →
        ∃ m, OsRole.get_user us n = .error (.keyError m)) ∧
    (∀ (us : List UserR) (n : String) (u : UserR), us.filter (fun x => x.name == n) = [u] →
        OsRole.get_user us n = .ok u) ∧
    (∀ (rs : List RoleR) (n : String), 2 ≤ (rs.filter (fun x => x.name == n)).length →
        ∃ m, OsRole.get_role rs n = .error (.valueError m)) ∧
    (∀ (rs : List RoleR) (n : String), rs.filter (fun x => x.name == n) = [] →
        ∃ m, OsRole.get_role rs n = .error (.keyError m)) ∧
    (∀ (rs : List RoleR) (n : String) (r : RoleR), rs.filter (fun x => x.name == n) = [r] →
        OsRole.get_role rs n = .ok r) ∧
    (∀ (ps : List ProjectR) (n : String) (p : ProjectR) (l : List ProjectR),
        ps.filter (fun x => x.id == n || x.name == n) = p :: l →
        OsProject.get_project ps n = some p) ∧
    (∀ (ps : List ProjectR) (n : String),
        ps.filter (fun x => x.id == n || x.name == n) = [] →
        OsProject.get_project ps n = none) := by
  refine ⟨?_, ?_, ?_, ?_, ?_, ?_, ?_, ?_⟩
  · intro us n h
    unfold OsRole.get_user
    cases hf : us.filter (fun x => x.name == n) with
    | nil => rw [hf] at h; simp at h
    | cons a t =>
        cases t with
        | nil => rw [hf] at h; simp at h
        | cons a2 t2 => simp only [hf]; exact ⟨_, rfl⟩
  · intro us n hf
    unfold OsRole.get_user
    simp only [hf]
    exact ⟨_, rfl⟩
  · intro us n u hf
    unfold OsRole.get_user
    simp only [hf]
  · intro rs n h
    unfold OsRole.get_role
    cases hf : rs.filter (fun x => x.name == n) with
    | nil => rw [hf] at h; simp at h
    | cons a t =>
        cases t with
        | nil => rw [hf] at h; simp at h
        | cons a2 t2 => simp only [hf]; exact ⟨_, rfl⟩
  · intro rs n hf
    unfold OsRole.get_role
    simp only [hf]
    exact ⟨_, rfl⟩
  · intro rs n r hf
    unfold OsRole.get_role
    simp only [hf]
  · intro ps n p l hf
    unfold OsProject.get_project
    simp only [hf]
  · intro ps n hf
    unfold OsProject.get_project
    simp only [hf]

/-- C3 witness: the amended lookup contract evaluated on concrete
listings for the one-match user case, the ambiguous two-match role case,
and the many-match project case. -/
theorem lookup_behavior_amended_witness :
    OsRole.get_user
      [{ id := "u1", name := "john", email := "", enabled := true,
         password := "", projectId := "p1" }] "john" =
      .ok { id := "u1", name := "john", email := "", enabled := true,
            password := "", projectId := "p1" } ∧
    (∃ m, OsRole.get_role
      [{ id := "r1", name := "admin" }, { id := "r2", name := "admin" }] "admin" =
      .error (.valueError m)) ∧
    OsProject.get_project
      [{ id := "a", name := "alpha", description := "", enabled := true },
       { id := "b", name := "alpha", description := "", enabled := true }] "alpha" =
      some { id := "a", name := "alpha", description := "", enabled := true } := by
  refine ⟨?_, ?_, ?_⟩
  · exact lookup_behavior_amended.2.2.1 _ "john" _ (by decide)
  · exact lookup_behavior_amended.2.2.2.1 _ "admin" (by decide)
  · exact lookup_behavior_amended.2.2.2.2.2.2.1 _ "alpha" _
      [{ id := "b", name := "alpha", description := "", enabled := true }] (by decide)

/-! ## C5: dispatcher precedence -/

/-- C5 (confirmed).  When the project, user and role fields are all
non-empty and state is present, dispatch runs exactly the RoleAssignment
convergence (its trace, backend effect and result are those of
ensure_role_exists, so neither the Project nor the User convergence
runs); and every field combination outside the six-row table — an empty
project, a role without a user, or a state other than present/absent —
returns the invalid-combination ValueError with an empty trace and an
unchanged backend, before any backend call. -/
theorem dispatch_precedence (b : Backend) (u pw pj pd em r st : String) (ck : Bool) :
    (pj ≠ "" → u ≠ "" → r ≠ "" →
      OsRole.dispatch b u pw pj pd em r "present" ck =
        OsRole.ensure_role_exists b u pj r ck) ∧
    ((pj = "" ∨ (u = "" ∧ r ≠ "") ∨ (st ≠ "present" ∧ st ≠ "absent")) →
      OsRole.dispatch b u pw pj pd em r st ck =
        ([], b, .error (.valueError "Code should never reach here"))) := by
  constructor
  · intro hpj hu hr
    unfold OsRole.dispatch
    simp [hpj, hu, hr]
  · intro h
    unfold OsRole.dispatch
    rcases h with h | ⟨hu, hr⟩ | ⟨h1, h2⟩
    · simp [h]
    · simp [hu, hr]
    · simp [h1, h2]

/-- C5 witness: the routing decision evaluated on concrete fields
(demo/john/admin routed to the role convergence; a lone role field
rejected with the invalid-combination error). -/
theorem dispatch_precedence_witness :
    OsRole.dispatch roleCexBackend "john" "" "demo" "" "" "admin" "present" false =
      OsRole.ensure_role_exists roleCexBackend "john" "demo" "admin" false ∧
    OsRole.dispatch roleCexBackend "" "" "" "" "" "admin" "present" false =
      ([], roleCexBackend, .error (.valueError "Code should never reach here")) := by
  constructor
  · exact (dispatch_precedence roleCexBackend "john" "" "demo" "" "" "admin" "present"
      false).1 (by decide) (by decide) (by decide)
  · exact (dispatch_precedence roleCexBackend "" "" "" "" "" "admin" "present"
      false).2 (Or.inl rfl)

/-! ## C9: role-membership ambiguity aborts before any mutation -/

/-- C9 (confirmed).  Whenever the user already holds two or more roles
with the requested name in the project, ensure_role_exists — in or out
of check mode — returns the ambiguity ValueError, with the backend state
unchanged and a trace containing no mutating call. -/
theorem role_ambiguity_no_mutation (b : Backend) (u p r : String) (ck : Bool)
    (user : UserR) (project : ProjectR)
    (hu : OsRole.get_user b.users u = .ok user)
    (hp : OsProject.get_project b.projects p = some project)
    (h2 : 2 ≤ ((roles_for_user b user project).filter (fun x => x.name == r)).length) :
    ∃ m t, OsRole.ensure_role_exists b u p r ck = (t, b, .error (.valueError m)) ∧
      mutCount t = 0 := by
  unfold OsRole.ensure_role_exists
  rw [hu, hp]
  cases hf : (roles_for_user b user project).filter (fun x => x.name == r) with
  | nil => rw [hf] at h2; simp at h2
  | cons x xs =>
      cases xs with
      | nil => rw [hf] at h2; simp at h2
      | cons y ys =>
          simp only [hf]
          exact ⟨_, _, rfl, by simp [mutCount, Call.isMutating]⟩

/-- A backend in which the user john holds two distinct roles that both
carry the name admin in the project demo. -/
def roleDupBackend : Backend :=
  { projects := [{ id := "p1", name := "demo", description := "", enabled := true }],
    users := [{ id := "u1", name := "john", email := "", enabled := true,
                password := "", projectId := "p1" }],
    roles := [],
    assignments :=
      [{ userId := "u1", projectId := "p1", role := { id := "r1", name := "admin" } },
       { userId := "u1", projectId := "p1", role := { id := "r2", name := "admin" } }],
    routers := [], nextId := 0 }

/-- C9 witness: the ambiguity guard evaluated on a concrete backend in
which john holds the admin role twice, outside check mode. -/
theorem role_ambiguity_no_mutation_witness :
    ∃ m t, OsRole.ensure_role_exists roleDupBackend "john" "demo" "admin" false =
      (t, roleDupBackend, .error (.valueError m)) ∧ mutCount t = 0 :=
  role_ambiguity_no_mutation roleDupBackend "john" "demo" "admin" false
    { id := "u1", name := "john", email := "", enabled := true,
      password := "", projectId := "p1" }
    { id := "p1", name := "demo", description := "", enabled := true }
    rfl (by decide) (by decide)

/-! ## C10: the password never participates in user updates -/

/-- Mapping each user to its (id, password) pair is invariant under
cloud_update_user's per-user rewrite of email and enabled. -/
theorem update_user_keeps_passwords (l : List UserR) (uid em : String) (en : Bool) :
    ((l.map (fun x =>
        if x.id == uid then { x with email := em, enabled := en } else x)).map
      (fun x => (x.id, x.password))) = l.map (fun x => (x.id, x.password)) := by
  induction l with
  | nil => rfl
  | cons a t ih =>
      simp only [List.map_cons, List.cons.injEq]
      refine ⟨?_, ih⟩
      by_cases h : (a.id == uid) = true <;> simp [h]

/-- C10 (confirmed).  For an existing user, the present-state User
convergence is independent of the supplied password (identical trace,
backend and report for any two passwords), the stored passwords of every
user survive the call unchanged, and a user whose enabled and email
already match is reported (changed=false, user) no matter the
password. -/
theorem user_password_untouched (b : Backend) (n p1 p2 em pj : String) (en ck : Bool)
    (user : UserR) (hfound : cloud_get_user b n = some user) :
    OsUser.ensure_user_exists b n p1 em pj en ck =
      OsUser.ensure_user_exists b n p2 em pj en ck ∧
    ((OsUser.ensure_user_exists b n p1 em pj en ck).2.1).users.map
        (fun x => (x.id, x.password)) =
      b.users.map (fun x => (x.id, x.password)) ∧
    (user.enabled = en → user.email = em →
      OsUser.ensure_user_exists b n p1 em pj en ck =
        ([Call.getUser n], b, (false, some user))) := by
  unfold OsUser.ensure_user_exists
  rw [hfound]
  refine ⟨rfl, ?_, ?_⟩
  · split
    · rename_i user2 heq
      injection heq with he
      subst he
      split
      · rfl
      · split
        · rfl
        · exact update_user_keeps_passwords b.users user.id em en
    · rename_i heq
      exact absurd heq (by simp)
  · intro h1 h2
    have hc : (user.enabled == en && user.email == em) = true := by
      rw [h1, h2]; simp
    simp [hc]

/-- C10 witness: the password-independence of the update path evaluated
on a concrete backend holding the user john, with two different
passwords and a divergent desired email. -/
theorem user_password_untouched_witness :
    OsUser.ensure_user_exists userAbsentBackend "john" "secret1" "new@x" "demo" true false =
      OsUser.ensure_user_exists userAbsentBackend "john" "secret2" "new@x" "demo" true false ∧
    ((OsUser.ensure_user_exists userAbsentBackend "john" "secret1" "new@x" "demo" true
        false).2.1).users.map (fun x => (x.id, x.password)) =
      userAbsentBackend.users.map (fun x => (x.id, x.password)) ∧
    (({ id := "u1", name := "john", email := "", enabled := true, password := "pw",
        projectId := "p1" } : UserR).enabled = true →
      ({ id := "u1", name := "john", email := "", enabled := true, password := "pw",
         projectId := "p1" } : UserR).email = "new@x" →
      OsUser.ensure_user_exists userAbsentBackend "john" "secret1" "new@x" "demo" true false =
        ([Call.getUser "john"], userAbsentBackend,
          (false, some { id := "u1", name := "john", email := "", enabled := true,
                         password := "pw", projectId := "p1" }))) := by
  have h := user_password_untouched userAbsentBackend "john" "secret1" "secret2" "new@x"
    "demo" true false
    { id := "u1", name := "john", email := "", enabled := true, password := "pw",
      projectId := "p1" } (by decide)
  exact ⟨h.1, h.2.1, h.2.2⟩

/-! ## C2: converge twice from absence — create, then conforming no-op -/

/-- When the project lookup finds nothing, no listed project matches the
id-or-name filter. -/
theorem cloud_get_project_none_filter (b : Backend) (n : String)
    (h : cloud_get_project b n = none) :
    b.projects.filter (fun x => x.id == n || x.name == n) = [] := by
  unfold cloud_get_project at h
  cases hf : b.projects.filter (fun x => x.id == n || x.name == n) with
  | nil => rfl
  | cons a t => rw [hf] at h; simp at h

/-- After creating the project whose lookup previously found nothing,
the lookup finds exactly the created record. -/
theorem cloud_get_project_after_create (b : Backend) (n d : String) (e : Bool)
    (h : cloud_get_project b n = none) :
    cloud_get_project (cloud_create_project b n d e) n = some (newProject b n d e) := by
  have hf := cloud_get_project_none_filter b n h
  unfold cloud_get_project cloud_create_project
  simp [List.filter_append, hf, newProject]

/-- Project half of the idempotence claim: from a backend where the
project is absent, the first present-state convergence creates it and
reports (true, created record); rerunning against the resulting backend
reports (false, same record) and leaves the backend as it was. -/
theorem proj_idempotent_aux (b : Backend) (n d : String) (e : Bool)
    (h : cloud_get_project b n = none) :
    (OsProject.ensure_project_exists b n d e false).2 =
      (cloud_create_project b n d e, (true, some (newProject b n d e))) ∧
    (OsProject.ensure_project_exists (cloud_create_project b n d e) n d e false).2 =
      (cloud_create_project b n d e, (false, some (newProject b n d e))) := by
  constructor
  · unfold OsProject.ensure_project_exists
    rw [h]
    rfl
  · unfold OsProject.ensure_project_exists
    rw [cloud_get_project_after_create b n d e h]
    simp [newProject]

/-- A role returned by get_role carries the requested name. -/
theorem get_role_ok_name (roles : List RoleR) (n : String) (r : RoleR)
    (h : OsRole.get_role roles n = .ok r) : r.name = n := by
  unfold OsRole.get_role at h
  cases hf : roles.filter (fun x => x.name == n) with
  | nil => rw [hf] at h; simp at h
  | cons a t =>
      cases t with
      | nil =>
          rw [hf] at h
          simp at h
          have hmem : a ∈ roles.filter (fun x => x.name == n) := by
            rw [hf]; exact List.mem_singleton_self a
          have hpa := List.of_mem_filter hmem
          simp at hpa
          rw [← h]
          exact hpa
      | cons a2 t2 => rw [hf] at h; simp at h

/-- After assigning a role carrying the requested name to a user who
previously held no role of that name in the project, rerunning the
RoleAssignment convergence reports (false, that role's id). -/
theorem role_second_call (b : Backend) (u p r : String) (user : UserR)
    (project : ProjectR) (role : RoleR) (ck : Bool)
    (hu : OsRole.get_user b.users u = .ok user)
    (hp : OsProject.get_project b.projects p = some project)
    (h0 : (roles_for_user b user project).filter (fun x => x.name == r) = [])
    (hname : role.name = r) :
    ((OsRole.ensure_role_exists (add_user_role b user role project) u p r ck).2).2 =
      .ok (false, some role.id) := by
  have hsplit : roles_for_user (add_user_role b user role project) user project =
      roles_for_user b user project ++ [role] := by
    unfold roles_for_user add_user_role
    simp [List.filter_append]
  have hfu : (roles_for_user (add_user_role b user role project) user project).filter
      (fun x => x.name == r) = [role] := by
    rw [hsplit, List.filter_append, h0]
    simp [hname]
  have hu2 : OsRole.get_user (add_user_role b user role project).users u = .ok user := hu
  have hp2 : OsProject.get_project (add_user_role b user role project).projects p =
      some project := hp
  unfold OsRole.ensure_role_exists
  rw [hu2, hp2]
  simp only [hfu]

/-- RoleAssignment half of the idempotence claim: from a backend with
resolvable user and project in which the user does not yet hold the
requested role (and the backing role list holds at most one role of that
name), the first convergence assigns (creating the role if needed) and
reports (true, role id); rerunning against the resulting backend reports
(false, the same role id). -/
theorem role_idempotent_aux (b : Backend) (u p r : String) (user : UserR)
    (project : ProjectR)
    (hu : OsRole.get_user b.users u = .ok user)
    (hp : OsProject.get_project b.projects p = some project)
    (h0 : (roles_for_user b user project).filter (fun x => x.name == r) = [])
    (hr : (b.roles.filter (fun x => x.name == r)).length ≤ 1) :
    ∃ rid b1,
      (OsRole.ensure_role_exists b u p r false).2 = (b1, .ok (true, some rid)) ∧
      ((OsRole.ensure_role_exists b1 u p r false).2).2 = .ok (false, some rid) := by
  cases hf : b.roles.filter (fun x => x.name == r) with
  | nil =>
      refine ⟨(newRole b r).id,
        add_user_role (roles_create b r) user (newRole b r) project, ?_, ?_⟩
      · unfold OsRole.ensure_role_exists OsRole.get_role
        rw [hu, hp]
        simp only [h0, hf]
        rfl
      · exact role_second_call (roles_create b r) u p r user project (newRole b r)
          false hu hp h0 rfl
  | cons a t =>
      cases t with
      | nil =>
          have hg : OsRole.get_role b.roles r = .ok a := by
            unfold OsRole.get_role; simp only [hf]
          have hname : a.name = r := get_role_ok_name b.roles r a hg
          refine ⟨a.id, add_user_role b user a project, ?_, ?_⟩
          · unfold OsRole.ensure_role_exists
            rw [hu, hp]
            simp only [h0, hg]
            rfl
          · exact role_second_call b u p r user project a false hu hp h0 hname
      | cons a2 t2 =>
          exfalso
          rw [hf] at hr
          simp at hr

/-- C2 (confirmed).  Converging twice with state present and dry_run
false, starting from a backend in which the resource is absent: the
Project convergence creates on the first call (changed=true) and
no-ops on the second (changed=false), reporting the same created record
— hence the same id — both times; the RoleAssignment convergence, from a
backend with resolvable unique user and project where the user lacks the
role, assigns on the first call (changed=true) and no-ops on the second
(changed=false), reporting the same role id both times. -/
theorem converge_present_idempotent (b bb : Backend) (n d : String) (e : Bool)
    (u p r : String) (user : UserR) (project : ProjectR)
    (hproj : cloud_get_project b n = none)
    (hu : OsRole.get_user bb.users u = .ok user)
    (hp : OsProject.get_project bb.projects p = some project)
    (h0 : (roles_for_user bb user project).filter (fun x => x.name == r) = [])
    (hr : (bb.roles.filter (fun x => x.name == r)).length ≤ 1) :
    (∃ pr b1,
      (OsProject.ensure_project_exists b n d e false).2 = (b1, (true, some pr)) ∧
      (OsProject.ensure_project_exists b1 n d e false).2 = (b1, (false, some pr))) ∧
    (∃ rid b1,
      (OsRole.ensure_role_exists bb u p r false).2 = (b1, .ok (true, some rid)) ∧
      ((OsRole.ensure_role_exists b1 u p r false).2).2 = .ok (false, some rid)) := by
  constructor
  · obtain ⟨h1, h2⟩ := proj_idempotent_aux b n d e hproj
    exact ⟨newProject b n d e, cloud_create_project b n d e, h1, h2⟩
  · exact role_idempotent_aux bb u p r user project hu hp h0 hr

/-- C2 witness: both halves of the idempotence property evaluated on
concrete backends — the project demo created on an empty backend, and
the admin role assigned to john in demo. -/
theorem converge_present_idempotent_witness :
    (∃ pr b1,
      (OsProject.ensure_project_exists emptyBackend "demo" "Default Tenant" true false).2 =
        (b1, (true, some pr)) ∧
      (OsProject.ensure_project_exists b1 "demo" "Default Tenant" true false).2 =
        (b1, (false, some pr))) ∧
    (∃ rid b1,
      (OsRole.ensure_role_exists roleCexBackend "john" "demo" "admin" false).2 =
        (b1, .ok (true, some rid)) ∧
      ((OsRole.ensure_role_exists b1 "john" "demo" "admin" false).2).2 =
        .ok (false, some rid)) :=
  converge_present_idempotent emptyBackend roleCexBackend "demo" "Default Tenant" true
    "john" "demo" "admin"
    { id := "u1", name := "john", email := "", enabled := true,
      password := "", projectId := "p1" }
    { id := "p1", name := "demo", description := "", enabled := true }
    (by decide) rfl (by decide) (by decide) (by decide)
